import Mathlib

/-!
# Verification of the JobRunr external-trigger client

Shallow embedding of `src/examples/external-trigger-example.py`: a client
that triggers a job over HTTP and polls its status until it reaches a
terminal state (`SUCCEEDED` or `FAILED`) or the attempt budget runs out.

Python strings are modelled as lists of characters, JSON objects as
association lists, the `requests` response as a record carrying a status
code and a parse outcome, and Python exceptions as a sum type `PyErr`.
The polling loop `wait_for_completion` is modelled as a fuel recursion
(the fuel is the number of loop iterations Python's
`range(1, max_attempts + 1)` yields, i.e. `max_attempts.toNat`) that also
records the observable trace: `getStatus` network calls, display
hand-offs, and sleeps.
-/

/-- Python strings, modelled as lists of characters. -/
abbrev Str := List Char

/-- Embed a Lean string literal as a modelled Python string. -/
def str (s : String) : Str := s.toList

/-- JSON values as far as the client inspects them: strings, integers and
nested objects (the `batchProgress` sub-record). -/
inductive JVal where
  | s (v : Str)
  | n (v : Int)
  | obj (fields : List (Str × JVal))

/-- A decoded JSON object body, e.g. the status record returned by the
`/status` endpoint: an association list from keys to values. -/
abbrev Dict := List (Str × JVal)

instance : Inhabited JVal := ⟨.n 0⟩

/-- Lookup `d[k]` / `d.get(k)` on a Python dict: first matching key wins. -/
def dictGet (d : Dict) (k : Str) : Option JVal :=
  match d with
  | [] => none
  | (key, v) :: rest => if key == k then some v else dictGet rest k

/-- Python exceptions the script can raise or observe:
`requests.HTTPError` (from `raise_for_status`), the JSON decode error from
`response.json()`, `KeyError` from a missing dict key, and `TimeoutError`
carrying the reported budget `max_attempts * sleep_interval`. -/
inductive PyErr where
  | httpError (code : Nat)
  | jsonDecodeError
  | keyError (key : Str)
  | timeoutError (budget : Int)

/-- The body of an HTTP response as seen by `response.json()`: either it
fails to parse as a JSON object, or it parses to a `Dict`. -/
inductive RespBody where
  | malformed
  | json (d : Dict)

/-- A `requests` response: HTTP status code plus body. -/
structure HttpResp where
  status_code : Nat
  body : RespBody

/-- Models `response.raise_for_status()`: raises `requests.HTTPError` for
4xx/5xx status codes, otherwise does nothing. -/
def raise_for_status (r : HttpResp) : Except PyErr Unit :=
  if 400 ≤ r.status_code ∧ r.status_code < 600 then
    .error (.httpError r.status_code)
  else
    .ok ()

/-- Models `response.json()`: the parsed object, or the (untyped) decode error. -/
def response_json (r : HttpResp) : Except PyErr Dict :=
  match r.body with
  | .malformed => .error .jsonDecodeError
  | .json d => .ok d

/-- Models `ExternalTriggerClient.trigger_job`: POST the trigger request, raise
on non-2xx, return the decoded body. The response `r` stands for what the
network returned to this POST. -/
def trigger_job (r : HttpResp) : Except PyErr Dict := do
  raise_for_status r
  response_json r

/-- Models `ExternalTriggerClient.get_job_status`: GET the status request, raise
on non-2xx, return the decoded body. The response `r` stands for what the
network returned to this GET. -/
def get_job_status (r : HttpResp) : Except PyErr Dict := do
  raise_for_status r
  response_json r

/-! ## URL construction (`__init__`, `trigger_job`, `get_job_status`) -/

/-- Python `base_url.rstrip("/")`: remove every trailing `'/'`. -/
def rstripSlash (s : Str) : Str :=
  (s.reverse.dropWhile (fun c => c == '/')).reverse

/-- The field `self.api_path = f"{self.base_url}/api/external-trigger"` where
`self.base_url = base_url.rstrip("/")`. -/
def api_path (base_url : Str) : Str :=
  rstripSlash base_url ++ str "/api/external-trigger"

/-- The request target `url = f"{self.api_path}/{job_id}/trigger"`. -/
def trigger_url (base_url job_id : Str) : Str :=
  api_path base_url ++ str "/" ++ job_id ++ str "/trigger"

/-- The request target `url = f"{self.api_path}/{job_id}/status"`. -/
def status_url (base_url job_id : Str) : Str :=
  api_path base_url ++ str "/" ++ job_id ++ str "/status"

/-- The join of two string pieces has no doubled path separator spanning
the boundary: it is not the case that the left piece ends with `'/'`
while the right piece starts with `'/'`. -/
def okJoin (l r : Str) : Bool :=
  !(l.getLast? == some '/' && r.head? == some '/')

/-- All concatenation points of `trigger_url` (as written in the source:
`base ++ "/api/external-trigger"`, then the f-string pieces joined left
to right) are free of doubled separators. -/
def trigger_url_joins_ok (base_url job_id : Str) : Bool :=
  okJoin (rstripSlash base_url) (str "/api/external-trigger") &&
  okJoin (api_path base_url) (str "/") &&
  okJoin (api_path base_url ++ str "/") job_id &&
  okJoin (api_path base_url ++ str "/" ++ job_id) (str "/trigger")

/-- Same for `status_url`. -/
def status_url_joins_ok (base_url job_id : Str) : Bool :=
  okJoin (rstripSlash base_url) (str "/api/external-trigger") &&
  okJoin (api_path base_url) (str "/") &&
  okJoin (api_path base_url ++ str "/") job_id &&
  okJoin (api_path base_url ++ str "/" ++ job_id) (str "/status")

/-! ## The polling loop (`wait_for_completion`) -/

/-- Python `==` between a JSON value and a string literal: only a string
value can compare equal; any other value compares unequal. -/
def pyStrEq (v : JVal) (w : Str) : Bool :=
  match v with
  | .s x => x == w
  | _ => false

/-- The test `job_status in ("SUCCEEDED", "FAILED")`: only those two string values
are terminal; any other value compares unequal. -/
def terminalStatus : JVal → Bool
  | .s v => v == str "SUCCEEDED" || v == str "FAILED"
  | _ => false

/-- Observable events of one `wait_for_completion` run: a `get_job_status`
network call, a hand-off of `(attempt, status)` to the display collaborator
(`self._print_status`), and a `time.sleep(sleep_interval)`. -/
inductive Event where
  | getCall
  | display (attempt : Nat) (status : Dict)
  | sleep (interval : Int)

def isCall : Event → Bool
  | .getCall => true
  | _ => false

def isSleep : Event → Bool
  | .sleep _ => true
  | _ => false

def isDisplay : Event → Bool
  | .display _ _ => true
  | _ => false

def countCalls (l : List Event) : Nat := l.countP (fun e => isCall e)

def countSleeps (l : List Event) : Nat := l.countP (fun e => isSleep e)

def countDisplays (l : List Event) : Nat := l.countP (fun e => isDisplay e)

def eraseDisplays (l : List Event) : List Event :=
  l.filter (fun e => !isDisplay e)

/-- The body of the `for attempt in range(1, max_attempts + 1)` loop,
recursing on the number of remaining iterations. `oracle i` is the
response the network returns to the i-th `get_job_status` call (1-based;
the i-th call happens on attempt i). When the iterations are exhausted,
`TimeoutError` is raised with budget `max_attempts * sleep_interval`.
Each iteration: call `get_job_status` (exceptions propagate), read
`status["status"]` (`KeyError` if absent), if `verbose` hand
`(attempt, status)` to the display collaborator, return the record if the
status is terminal, otherwise sleep and continue. Returns the outcome and
the trace of observable events. -/
def wait_from (oracle : Nat → HttpResp) (attempt : Nat) (remaining : Nat)
    (max_attempts sleep_interval : Int) (verbose : Bool) :
    Except PyErr Dict × List Event :=
  match remaining with
  | 0 => (.error (.timeoutError (max_attempts * sleep_interval)), [])
  | r + 1 =>
    match get_job_status (oracle attempt) with
    | .error e => (.error e, [.getCall])
    | .ok status =>
      match dictGet status (str "status") with
      | none => (.error (.keyError (str "status")), [.getCall])
      | some job_status =>
        let dis : List Event := if verbose then [.display attempt status] else []
        if terminalStatus job_status then
          (.ok status, .getCall :: dis)
        else
          let next := wait_from oracle (attempt + 1) r max_attempts sleep_interval verbose
          (next.1, .getCall :: (dis ++ .sleep sleep_interval :: next.2))

/-- Models `ExternalTriggerClient.wait_for_completion`: run the loop from
attempt 1; Python's `range(1, max_attempts + 1)` yields
`max_attempts.toNat` iterations (empty when `max_attempts ≤ 0`). -/
def wait_for_completion (oracle : Nat → HttpResp)
    (max_attempts sleep_interval : Int) (verbose : Bool) :
    Except PyErr Dict × List Event :=
  wait_from oracle 1 max_attempts.toNat max_attempts sleep_interval verbose

/-! ## Display defaults (`_print_status`) -/

/-- The line `job_name = status.get("jobName", "Unknown")` in `_print_status`. -/
def displayed_job_name (status : Dict) : JVal :=
  (dictGet status (str "jobName")).getD (.s (str "Unknown"))

/-- The line `job_type = status.get("jobType", "Unknown")` in `_print_status`. -/
def displayed_job_type (status : Dict) : JVal :=
  (dictGet status (str "jobType")).getD (.s (str "Unknown"))

/-! ## The CLI flow (`main`) -/

/-- How one run of `main` ends: `sys.exit(c)`, or an exception no handler
catches (the interpreter then terminates with a traceback). -/
inductive Outcome where
  | exitCode (c : Nat)
  | uncaught (e : PyErr)

/-- Models `main` after argument parsing: trigger the job (`except
requests.HTTPError: sys.exit(1)`); on success wait for completion with the
defaults `max_attempts=60, sleep_interval=2, verbose=True`; map the final
record to exit 0 on `SUCCEEDED` and 1 otherwise, `TimeoutError` to exit 2
and `requests.HTTPError` to exit 1; other exceptions are uncaught.
`trig` is the network's response to the POST and `oracle` the responses
to the successive GETs. Returns the outcome together with the number of
`get_job_status` calls made. -/
def mainFlow (trig : HttpResp) (oracle : Nat → HttpResp) : Outcome × Nat :=
  match trigger_job trig with
  | .error (.httpError _) => (.exitCode 1, 0)
  | .error e => (.uncaught e, 0)
  | .ok _ =>
    let w := wait_for_completion oracle 60 2 true
    let n := countCalls w.2
    match w.1 with
    | .ok final_status =>
      match dictGet final_status (str "status") with
      | some v =>
        if pyStrEq v (str "SUCCEEDED") then (.exitCode 0, n)
        else (.exitCode 1, n)
      | none => (.uncaught (.keyError (str "status")), n)
    | .error (.timeoutError _) => (.exitCode 2, n)
    | .error (.httpError _) => (.exitCode 1, n)
    | .error e => (.uncaught e, n)

/-! ## Poll classification predicates used by the theorems -/

/-- The response to one poll is a 2xx success whose body decodes to a
record carrying a non-terminal `status`. -/
def nonTerminalPoll (r : HttpResp) : Bool :=
  match get_job_status r with
  | .ok d =>
    match dictGet d (str "status") with
    | some v => !terminalStatus v
    | none => false
  | .error _ => false

/-- The response to one poll is a 2xx success whose body decodes to a
record carrying a `status` key (terminal or not). -/
def wellFormedPoll (r : HttpResp) : Bool :=
  match get_job_status r with
  | .ok d =>
    match dictGet d (str "status") with
    | some _ => true
    | none => false
  | .error _ => false

/-! ## Unfolding lemmas for `wait_from` -/

theorem wait_from_zero (oracle : Nat → HttpResp) (a : Nat) (ma si : Int)
    (v : Bool) :
    wait_from oracle a 0 ma si v =
      (.error (.timeoutError (ma * si)), []) := rfl

theorem wait_from_step_error {oracle : Nat → HttpResp} {a : Nat} {e : PyErr}
    (r : Nat) (ma si : Int) (v : Bool)
    (h : get_job_status (oracle a) = .error e) :
    wait_from oracle a (r + 1) ma si v = (.error e, [.getCall]) := by
  simp [wait_from, h]

theorem wait_from_step_error_fst {oracle : Nat → HttpResp} {a : Nat}
    {e : PyErr} (r : Nat) (ma si : Int) (v : Bool)
    (h : get_job_status (oracle a) = .error e) :
    (wait_from oracle a (r + 1) ma si v).1 = .error e := by
  rw [wait_from_step_error r ma si v h]

theorem wait_from_step_error_snd {oracle : Nat → HttpResp} {a : Nat}
    {e : PyErr} (r : Nat) (ma si : Int) (v : Bool)
    (h : get_job_status (oracle a) = .error e) :
    (wait_from oracle a (r + 1) ma si v).2 = [.getCall] := by
  rw [wait_from_step_error r ma si v h]

theorem wait_from_step_nokey {oracle : Nat → HttpResp} {a : Nat} {d : Dict}
    (r : Nat) (ma si : Int) (v : Bool)
    (h1 : get_job_status (oracle a) = .ok d)
    (h2 : dictGet d (str "status") = none) :
    wait_from oracle a (r + 1) ma si v =
      (.error (.keyError (str "status")), [.getCall]) := by
  simp [wait_from, h1, h2]

theorem wait_from_step_terminal {oracle : Nat → HttpResp} {a : Nat} {d : Dict}
    {jv : JVal} (r : Nat) (ma si : Int) (v : Bool)
    (h1 : get_job_status (oracle a) = .ok d)
    (h2 : dictGet d (str "status") = some jv)
    (h3 : terminalStatus jv = true) :
    wait_from oracle a (r + 1) ma si v =
      (.ok d, .getCall :: (if v then [.display a d] else [])) := by
  simp [wait_from, h1, h2, h3]

theorem wait_from_step_terminal_fst {oracle : Nat → HttpResp} {a : Nat}
    {d : Dict} {jv : JVal} (r : Nat) (ma si : Int) (v : Bool)
    (h1 : get_job_status (oracle a) = .ok d)
    (h2 : dictGet d (str "status") = some jv)
    (h3 : terminalStatus jv = true) :
    (wait_from oracle a (r + 1) ma si v).1 = .ok d := by
  rw [wait_from_step_terminal r ma si v h1 h2 h3]

theorem wait_from_step_terminal_snd {oracle : Nat → HttpResp} {a : Nat}
    {d : Dict} {jv : JVal} (r : Nat) (ma si : Int) (v : Bool)
    (h1 : get_job_status (oracle a) = .ok d)
    (h2 : dictGet d (str "status") = some jv)
    (h3 : terminalStatus jv = true) :
    (wait_from oracle a (r + 1) ma si v).2 =
      .getCall :: (if v then [.display a d] else []) := by
  rw [wait_from_step_terminal r ma si v h1 h2 h3]

theorem wait_from_step_nonterminal {oracle : Nat → HttpResp} {a : Nat}
    {d : Dict} {jv : JVal} (r : Nat) (ma si : Int) (v : Bool)
    (h1 : get_job_status (oracle a) = .ok d)
    (h2 : dictGet d (str "status") = some jv)
    (h3 : terminalStatus jv = false) :
    wait_from oracle a (r + 1) ma si v =
      ((wait_from oracle (a + 1) r ma si v).1,
        .getCall :: ((if v then [.display a d] else []) ++
          .sleep si :: (wait_from oracle (a + 1) r ma si v).2)) := by
  simp [wait_from, h1, h2, h3]

theorem wait_from_step_nonterminal_fst {oracle : Nat → HttpResp} {a : Nat}
    {d : Dict} {jv : JVal} (r : Nat) (ma si : Int) (v : Bool)
    (h1 : get_job_status (oracle a) = .ok d)
    (h2 : dictGet d (str "status") = some jv)
    (h3 : terminalStatus jv = false) :
    (wait_from oracle a (r + 1) ma si v).1 =
      (wait_from oracle (a + 1) r ma si v).1 := by
  rw [wait_from_step_nonterminal r ma si v h1 h2 h3]

theorem wait_from_step_nonterminal_snd {oracle : Nat → HttpResp} {a : Nat}
    {d : Dict} {jv : JVal} (r : Nat) (ma si : Int) (v : Bool)
    (h1 : get_job_status (oracle a) = .ok d)
    (h2 : dictGet d (str "status") = some jv)
    (h3 : terminalStatus jv = false) :
    (wait_from oracle a (r + 1) ma si v).2 =
      .getCall :: ((if v then [.display a d] else []) ++
        .sleep si :: (wait_from oracle (a + 1) r ma si v).2) := by
  rw [wait_from_step_nonterminal r ma si v h1 h2 h3]

/-! ## Elimination lemmas for poll classification -/

theorem nonTerminalPoll_spec {r : HttpResp} (h : nonTerminalPoll r = true) :
    ∃ d jv, get_job_status r = .ok d ∧ dictGet d (str "status") = some jv ∧
      terminalStatus jv = false := by
  cases hg : get_job_status r with
  | error e => simp [nonTerminalPoll, hg] at h
  | ok d =>
    cases hk : dictGet d (str "status") with
    | none => simp [nonTerminalPoll, hg, hk] at h
    | some jv =>
      refine ⟨d, jv, rfl, hk, ?_⟩
      simp [nonTerminalPoll, hg, hk] at h
      simpa using h

theorem wellFormedPoll_spec {r : HttpResp} (h : wellFormedPoll r = true) :
    ∃ d jv, get_job_status r = .ok d ∧
      dictGet d (str "status") = some jv := by
  cases hg : get_job_status r with
  | error e => simp [wellFormedPoll, hg] at h
  | ok d =>
    cases hk : dictGet d (str "status") with
    | none => simp [wellFormedPoll, hg, hk] at h
    | some jv => exact ⟨d, jv, rfl, hk⟩

/-! ## Counting the events of one loop iteration -/

theorem counts_step (a : Nat) (d : Dict) (si : Int) (v : Bool)
    (t : List Event) :
    countCalls (.getCall :: ((if v then [.display a d] else []) ++
        .sleep si :: t)) = countCalls t + 1 ∧
    countSleeps (.getCall :: ((if v then [.display a d] else []) ++
        .sleep si :: t)) = countSleeps t + 1 ∧
    countDisplays (.getCall :: ((if v then [.display a d] else []) ++
        .sleep si :: t)) = countDisplays t + (if v then 1 else 0) := by
  cases v <;>
    simp [countCalls, countSleeps, countDisplays, List.countP_cons,
      List.countP_append, isCall, isSleep, isDisplay]

theorem counts_terminal (a : Nat) (d : Dict) (v : Bool) :
    countCalls (.getCall :: (if v then [.display a d] else [])) = 1 ∧
    countSleeps (.getCall :: (if v then [.display a d] else [])) = 0 ∧
    countDisplays (.getCall :: (if v then [.display a d] else [])) =
      (if v then 1 else 0) := by
  cases v <;>
    simp [countCalls, countSleeps, countDisplays, List.countP_cons,
      isCall, isSleep, isDisplay]

theorem counts_one_call :
    countCalls [Event.getCall] = 1 ∧ countSleeps [Event.getCall] = 0 ∧
    countDisplays [Event.getCall] = 0 := by
  simp [countCalls, countSleeps, countDisplays, List.countP_cons,
    isCall, isSleep, isDisplay]

/-! ## Loop invariants: how the wait ends -/

/-- If every one of the `r` remaining polls is non-terminal, the loop
exhausts its budget: it raises `TimeoutError` with budget
`max_attempts * sleep_interval` after `r` calls, `r` sleeps (one after
every non-terminal poll, the last included) and, when verbose, `r`
display hand-offs. -/
theorem wait_all_nonterminal (oracle : Nat → HttpResp) (ma si : Int)
    (v : Bool) :
    ∀ (r a : Nat), (∀ j, j < r → nonTerminalPoll (oracle (a + j)) = true) →
      (wait_from oracle a r ma si v).1 = .error (.timeoutError (ma * si)) ∧
      countCalls (wait_from oracle a r ma si v).2 = r ∧
      countSleeps (wait_from oracle a r ma si v).2 = r ∧
      countDisplays (wait_from oracle a r ma si v).2 =
        (if v then r else 0) := by
  intro r
  induction r with
  | zero =>
    intro a _
    refine ⟨rfl, rfl, rfl, ?_⟩
    cases v <;> rfl
  | succ n ih =>
    intro a h
    have h0 := h 0 (Nat.succ_pos n)
    rw [Nat.add_zero] at h0
    obtain ⟨d, jv, h1, h2, h3⟩ := nonTerminalPoll_spec h0
    have hfst := wait_from_step_nonterminal_fst n ma si v h1 h2 h3
    have hsnd := wait_from_step_nonterminal_snd n ma si v h1 h2 h3
    have hrec := ih (a + 1) (fun j hj => by
      have hh := h (j + 1) (by omega)
      rwa [show a + (j + 1) = a + 1 + j by omega] at hh)
    have hc := counts_step a d si v (wait_from oracle (a + 1) n ma si v).2
    refine ⟨hfst.trans hrec.1, ?_, ?_, ?_⟩
    · rw [hsnd, hc.1, hrec.2.1]
    · rw [hsnd, hc.2.1, hrec.2.2.1]
    · rw [hsnd, hc.2.2, hrec.2.2.2]
      cases v <;> simp

/-- If the polls at offsets `0..k-1` are non-terminal and the poll at
offset `k` returns a record with a terminal status, the loop returns that
record after `k + 1` calls and `k` sleeps, with a display hand-off on
every attempt (the terminal one included) when verbose. -/
theorem wait_terminal_at (oracle : Nat → HttpResp) (ma si : Int) (v : Bool)
    (d : Dict) (jv : JVal)
    (hkey : dictGet d (str "status") = some jv)
    (hterm : terminalStatus jv = true) :
    ∀ (k a r : Nat), k < r →
      (∀ j, j < k → nonTerminalPoll (oracle (a + j)) = true) →
      get_job_status (oracle (a + k)) = .ok d →
      (wait_from oracle a r ma si v).1 = .ok d ∧
      countCalls (wait_from oracle a r ma si v).2 = k + 1 ∧
      countSleeps (wait_from oracle a r ma si v).2 = k ∧
      countDisplays (wait_from oracle a r ma si v).2 =
        (if v then k + 1 else 0) := by
  intro k
  induction k with
  | zero =>
    intro a r hr _ hok
    obtain ⟨s, rfl⟩ : ∃ s, r = s + 1 := ⟨r - 1, by omega⟩
    rw [Nat.add_zero] at hok
    have hfst := wait_from_step_terminal_fst s ma si v hok hkey hterm
    have hsnd := wait_from_step_terminal_snd s ma si v hok hkey hterm
    have hc := counts_terminal a d v
    exact ⟨hfst, by rw [hsnd, hc.1], by rw [hsnd, hc.2.1],
      by rw [hsnd, hc.2.2]⟩
  | succ n ih =>
    intro a r hr h hok
    obtain ⟨s, rfl⟩ : ∃ s, r = s + 1 := ⟨r - 1, by omega⟩
    have h0 := h 0 (Nat.succ_pos n)
    rw [Nat.add_zero] at h0
    obtain ⟨d0, jv0, h1, h2, h3⟩ := nonTerminalPoll_spec h0
    have hfst := wait_from_step_nonterminal_fst s ma si v h1 h2 h3
    have hsnd := wait_from_step_nonterminal_snd s ma si v h1 h2 h3
    have hrec := ih (a + 1) s (by omega)
      (fun j hj => by
        have hh := h (j + 1) (by omega)
        rwa [show a + (j + 1) = a + 1 + j by omega] at hh)
      (by rwa [show a + (n + 1) = a + 1 + n by omega] at hok)
    have hc := counts_step a d0 si v (wait_from oracle (a + 1) s ma si v).2
    refine ⟨hfst.trans hrec.1, ?_, ?_, ?_⟩
    · rw [hsnd, hc.1, hrec.2.1]
    · rw [hsnd, hc.2.1, hrec.2.2.1]
    · rw [hsnd, hc.2.2, hrec.2.2.2]
      cases v <;> simp

/-- If the polls at offsets `0..k-1` are non-terminal and the call at
offset `k` raises, the exception propagates as is: the wait aborts after
`k + 1` calls and `k` sleeps, with no display on the failing attempt. -/
theorem wait_error_at (oracle : Nat → HttpResp) (ma si : Int) (v : Bool)
    (e : PyErr) :
    ∀ (k a r : Nat), k < r →
      (∀ j, j < k → nonTerminalPoll (oracle (a + j)) = true) →
      get_job_status (oracle (a + k)) = .error e →
      (wait_from oracle a r ma si v).1 = .error e ∧
      countCalls (wait_from oracle a r ma si v).2 = k + 1 ∧
      countSleeps (wait_from oracle a r ma si v).2 = k ∧
      countDisplays (wait_from oracle a r ma si v).2 =
        (if v then k else 0) := by
  intro k
  induction k with
  | zero =>
    intro a r hr _ hok
    obtain ⟨s, rfl⟩ : ∃ s, r = s + 1 := ⟨r - 1, by omega⟩
    rw [Nat.add_zero] at hok
    have hfst := wait_from_step_error_fst s ma si v hok
    have hsnd := wait_from_step_error_snd s ma si v hok
    have hc := counts_one_call
    refine ⟨hfst, by rw [hsnd, hc.1], by rw [hsnd, hc.2.1], ?_⟩
    rw [hsnd, hc.2.2]
    cases v <;> rfl
  | succ n ih =>
    intro a r hr h hok
    obtain ⟨s, rfl⟩ : ∃ s, r = s + 1 := ⟨r - 1, by omega⟩
    have h0 := h 0 (Nat.succ_pos n)
    rw [Nat.add_zero] at h0
    obtain ⟨d0, jv0, h1, h2, h3⟩ := nonTerminalPoll_spec h0
    have hfst := wait_from_step_nonterminal_fst s ma si v h1 h2 h3
    have hsnd := wait_from_step_nonterminal_snd s ma si v h1 h2 h3
    have hrec := ih (a + 1) s (by omega)
      (fun j hj => by
        have hh := h (j + 1) (by omega)
        rwa [show a + (j + 1) = a + 1 + j by omega] at hh)
      (by rwa [show a + (n + 1) = a + 1 + n by omega] at hok)
    have hc := counts_step a d0 si v (wait_from oracle (a + 1) s ma si v).2
    refine ⟨hfst.trans hrec.1, ?_, ?_, ?_⟩
    · rw [hsnd, hc.1, hrec.2.1]
    · rw [hsnd, hc.2.1, hrec.2.2.1]
    · rw [hsnd, hc.2.2, hrec.2.2.2]
      cases v <;> simp

/-! ## Verbose flag: observational equivalence up to display events -/

theorem countDisplays_eraseDisplays (l : List Event) :
    countDisplays (eraseDisplays l) = 0 := by
  induction l with
  | nil => rfl
  | cons e t ih =>
    cases e <;>
      simp [eraseDisplays, countDisplays, List.filter_cons, List.countP_cons,
        isDisplay] <;>
      simpa [eraseDisplays, countDisplays] using ih

theorem countCalls_eraseDisplays (l : List Event) :
    countCalls (eraseDisplays l) = countCalls l := by
  induction l with
  | nil => rfl
  | cons e t ih =>
    cases e <;>
      simp [eraseDisplays, countCalls, List.filter_cons, List.countP_cons,
        isDisplay, isCall] <;>
      simpa [eraseDisplays, countCalls] using ih

theorem countSleeps_eraseDisplays (l : List Event) :
    countSleeps (eraseDisplays l) = countSleeps l := by
  induction l with
  | nil => rfl
  | cons e t ih =>
    cases e <;>
      simp [eraseDisplays, countSleeps, List.filter_cons, List.countP_cons,
        isDisplay, isSleep] <;>
      simpa [eraseDisplays, countSleeps] using ih

/-- The verbose flag does not influence the loop: the outcome is the same
and the traces agree once display events are erased. -/
theorem wait_verbose_indep (oracle : Nat → HttpResp) (ma si : Int) :
    ∀ (r a : Nat),
      (wait_from oracle a r ma si true).1 =
        (wait_from oracle a r ma si false).1 ∧
      eraseDisplays (wait_from oracle a r ma si true).2 =
        (wait_from oracle a r ma si false).2 := by
  intro r
  induction r with
  | zero => intro a; exact ⟨rfl, rfl⟩
  | succ n ih =>
    intro a
    cases hg : get_job_status (oracle a) with
    | error e =>
      rw [wait_from_step_error_fst n ma si true hg,
        wait_from_step_error_fst n ma si false hg,
        wait_from_step_error_snd n ma si true hg,
        wait_from_step_error_snd n ma si false hg]
      exact ⟨rfl, by simp [eraseDisplays, List.filter_cons, isDisplay]⟩
    | ok d =>
      cases hk : dictGet d (str "status") with
      | none =>
        rw [show wait_from oracle a (n + 1) ma si true =
            (.error (.keyError (str "status")), [.getCall]) from
            wait_from_step_nokey n ma si true hg hk,
          show wait_from oracle a (n + 1) ma si false =
            (.error (.keyError (str "status")), [.getCall]) from
            wait_from_step_nokey n ma si false hg hk]
        exact ⟨rfl, by simp [eraseDisplays, List.filter_cons, isDisplay]⟩
      | some jv =>
        cases ht : terminalStatus jv with
        | true =>
          rw [wait_from_step_terminal_fst n ma si true hg hk ht,
            wait_from_step_terminal_fst n ma si false hg hk ht,
            wait_from_step_terminal_snd n ma si true hg hk ht,
            wait_from_step_terminal_snd n ma si false hg hk ht]
          exact ⟨rfl, by simp [eraseDisplays, List.filter_cons, isDisplay]⟩
        | false =>
          have iha := ih (a + 1)
          rw [wait_from_step_nonterminal_fst n ma si true hg hk ht,
            wait_from_step_nonterminal_fst n ma si false hg hk ht,
            wait_from_step_nonterminal_snd n ma si true hg hk ht,
            wait_from_step_nonterminal_snd n ma si false hg hk ht]
          refine ⟨iha.1, ?_⟩
          simp [eraseDisplays, List.filter_cons, List.filter_append,
            isDisplay] at iha ⊢
          exact iha.2

/-- When every poll the loop can reach yields a record carrying a
`status` key, the verbose loop hands one `(attempt, record)` pair to the
display collaborator per `get_job_status` call — the returning attempt
included. -/
theorem wait_displays_eq_calls (oracle : Nat → HttpResp) (ma si : Int) :
    ∀ (r a : Nat), (∀ i, a ≤ i → wellFormedPoll (oracle i) = true) →
      countDisplays (wait_from oracle a r ma si true).2 =
        countCalls (wait_from oracle a r ma si true).2 := by
  intro r
  induction r with
  | zero => intro a _; rfl
  | succ n ih =>
    intro a h
    obtain ⟨d, jv, h1, h2⟩ := wellFormedPoll_spec (h a (Nat.le_refl a))
    cases ht : terminalStatus jv with
    | true =>
      rw [wait_from_step_terminal_snd n ma si true h1 h2 ht]
      simp [countDisplays, countCalls, List.countP_cons, isDisplay, isCall]
    | false =>
      rw [wait_from_step_nonterminal_snd n ma si true h1 h2 ht]
      have hrec := ih (a + 1) (fun i hi => h i (by omega))
      have hc := counts_step a d si true
        (wait_from oracle (a + 1) n ma si true).2
      rw [hc.1, hc.2.2, hrec]
      simp

/-! ## Base-URL normalization lemmas -/

theorem dropSlash_replicate (n : Nat) (l : Str) :
    (List.replicate n '/' ++ l).dropWhile (fun c => c == '/') =
      l.dropWhile (fun c => c == '/') := by
  induction n with
  | zero => rfl
  | succ m ih => simp [List.replicate_succ, List.dropWhile_cons, ih]

theorem rstripSlash_append_slashes (b : Str) (n : Nat) :
    rstripSlash (b ++ List.replicate n '/') = rstripSlash b := by
  unfold rstripSlash
  rw [List.reverse_append, List.reverse_replicate, dropSlash_replicate]

theorem head_dropSlash (l : Str) :
    (l.dropWhile (fun c => c == '/')).head? ≠ some '/' := by
  induction l with
  | nil => simp
  | cons c t ih =>
    by_cases h : c = '/'
    · simpa [List.dropWhile_cons, h] using ih
    · simp [List.dropWhile_cons, h]

theorem rstripSlash_getLast (b : Str) :
    (rstripSlash b).getLast? ≠ some '/' := by
  unfold rstripSlash
  rw [List.getLast?_reverse]
  exact head_dropSlash b.reverse

theorem okJoin_of_left (l r : Str) (h : l.getLast? ≠ some '/') :
    okJoin l r = true := by
  simp [okJoin, h]

theorem okJoin_of_right (l r : Str) (h : r.head? ≠ some '/') :
    okJoin l r = true := by
  simp [okJoin, h]

theorem api_path_getLast (b : Str) : (api_path b).getLast? = some 'r' := by
  unfold api_path
  rw [List.getLast?_append_of_ne_nil _
    (by decide : str "/api/external-trigger" ≠ [])]
  decide

/-! ## Concrete sample responses and oracles -/

def enqDict : Dict := [(str "status", .s (str "ENQUEUED"))]

def enqResp : HttpResp := ⟨200, .json enqDict⟩

/-- A service that always answers `ENQUEUED`. -/
def enqOracle : Nat → HttpResp := fun _ => enqResp

def succDict : Dict := [(str "status", .s (str "SUCCEEDED"))]

def succResp : HttpResp := ⟨200, .json succDict⟩

/-- A service that always answers `SUCCEEDED`. -/
def succOracle : Nat → HttpResp := fun _ => succResp

def failedDict : Dict := [(str "status", .s (str "FAILED"))]

def failedResp : HttpResp := ⟨200, .json failedDict⟩

/-- Responds `ENQUEUED` on the first two polls, `FAILED` from the third on. -/
def failAfterTwo : Nat → HttpResp :=
  fun i => if i ≤ 2 then enqResp else failedResp

/-- Responds `ENQUEUED` on the first poll, HTTP 500 from the second on. -/
def errorAfterOne : Nat → HttpResp :=
  fun i => if i ≤ 1 then enqResp else ⟨500, .json []⟩

/-- A 2xx status body with no `status` key. -/
def noStatusDict : Dict := [(str "jobName", .s (str "MyJob"))]

def noStatusResp : HttpResp := ⟨200, .json noStatusDict⟩

def noStatusOracle : Nat → HttpResp := fun _ => noStatusResp

/-- A 2xx response whose body does not parse. -/
def malformedResp : HttpResp := ⟨200, .malformed⟩

/-- The trigger POST is answered with HTTP 404. -/
def trig404 : HttpResp := ⟨404, .json []⟩

/-- The trigger POST is answered with 2xx and an empty object. -/
def okTrig : HttpResp := ⟨200, .json []⟩

/-! ## Claims -/

/-- Claim C1: if `getStatus` yields a non-terminal status on attempts
`1..k-1` and a terminal one (`SUCCEEDED` or `FAILED` alike) on attempt
`k ≤ maxAttempts`, `waitForCompletion` returns that exact attempt-k
record after exactly `k` calls and `k - 1` sleeps. -/
theorem claim_c1_terminal_poll_returns_record
    (oracle : Nat → HttpResp) (ma si : Int) (v : Bool) (k : Nat)
    (d : Dict) (jv : JVal)
    (hk1 : 1 ≤ k) (hkma : (k : Int) ≤ ma)
    (hnt : ∀ i, i < k → 1 ≤ i → nonTerminalPoll (oracle i) = true)
    (hok : get_job_status (oracle k) = .ok d)
    (hkey : dictGet d (str "status") = some jv)
    (hterm : terminalStatus jv = true) :
    (wait_for_completion oracle ma si v).1 = .ok d ∧
    countCalls (wait_for_completion oracle ma si v).2 = k ∧
    countSleeps (wait_for_completion oracle ma si v).2 = k - 1 := by
  have hr : k - 1 < ma.toNat := by omega
  have hmain := wait_terminal_at oracle ma si v d jv hkey hterm
    (k - 1) 1 ma.toNat hr
    (fun j hj => hnt (1 + j) (by omega) (by omega))
    (by rwa [show 1 + (k - 1) = k by omega])
  unfold wait_for_completion
  exact ⟨hmain.1, by rw [hmain.2.1]; omega, hmain.2.2.1⟩

theorem claim_c1_witness :
    (wait_for_completion failAfterTwo 5 2 true).1 = .ok failedDict ∧
    countCalls (wait_for_completion failAfterTwo 5 2 true).2 = 3 ∧
    countSleeps (wait_for_completion failAfterTwo 5 2 true).2 = 2 :=
  claim_c1_terminal_poll_returns_record failAfterTwo 5 2 true 3 failedDict
    (.s (str "FAILED")) (by decide) (by decide) (by decide) rfl rfl rfl

/-- Claim C2: if every poll up to the `maxAttempts`-th is non-terminal,
`waitForCompletion` fails with the timeout error carrying
`maxAttempts * pollInterval` and never returns a record. -/
theorem claim_c2_timeout (oracle : Nat → HttpResp) (ma si : Int) (v : Bool)
    (hnt : ∀ j, j < ma.toNat → nonTerminalPoll (oracle (1 + j)) = true) :
    (wait_for_completion oracle ma si v).1 =
      .error (.timeoutError (ma * si)) ∧
    ∀ d, (wait_for_completion oracle ma si v).1 ≠ .ok d := by
  have hmain := wait_all_nonterminal oracle ma si v ma.toNat 1 hnt
  unfold wait_for_completion
  refine ⟨hmain.1, fun d h => ?_⟩
  rw [hmain.1] at h
  exact Except.noConfusion h

theorem claim_c2_witness :
    (wait_for_completion enqOracle 2 3 true).1 =
      .error (.timeoutError (2 * 3)) ∧
    (wait_for_completion enqOracle 2 3 true).1 ≠ .ok enqDict :=
  have h := claim_c2_timeout enqOracle 2 3 true (fun j hj => rfl)
  ⟨h.1, h.2 enqDict⟩

/-- Claim C3 counterexample: with `maxAttempts = 2` and a service that
always answers `ENQUEUED`, the run times out after 2 sleeps, not the
claimed `maxAttempts - 1 = 1`: the code sleeps after the final
non-terminal poll before raising `TimeoutError`. -/
theorem claim_c3_counterexample :
    (wait_for_completion enqOracle 2 2 true).1 =
      .error (.timeoutError (2 * 2)) ∧
    countSleeps (wait_for_completion enqOracle 2 2 true).2 ≠ 2 - 1 :=
  ⟨rfl, by decide⟩

/-- Claim C3 amended: on the timeout path the loop sleeps after every
non-terminal poll, the `maxAttempts`-th included, so exactly
`maxAttempts` sleeps occur for `maxAttempts` polls, and only after the
final sleep is `WaitTimedOut` raised. -/
theorem claim_c3_sleep_count (oracle : Nat → HttpResp) (ma si : Int)
    (v : Bool)
    (hnt : ∀ j, j < ma.toNat → nonTerminalPoll (oracle (1 + j)) = true) :
    countSleeps (wait_for_completion oracle ma si v).2 = ma.toNat ∧
    countCalls (wait_for_completion oracle ma si v).2 = ma.toNat := by
  have hmain := wait_all_nonterminal oracle ma si v ma.toNat 1 hnt
  unfold wait_for_completion
  exact ⟨hmain.2.2.1, hmain.2.1⟩

theorem claim_c3_witness :
    countSleeps (wait_for_completion enqOracle 2 2 true).2 = 2 ∧
    countCalls (wait_for_completion enqOracle 2 2 true).2 = 2 :=
  claim_c3_sleep_count enqOracle 2 2 true (fun j hj => rfl)

/-- Claim C5: an exception raised by `getStatus` on attempt `k` aborts
the wait there and then: it propagates unchanged after exactly `k` calls
and `k - 1` sleeps, is not retried, and is never turned into the timeout
error. -/
theorem claim_c5_error_propagates
    (oracle : Nat → HttpResp) (ma si : Int) (v : Bool) (k : Nat) (e : PyErr)
    (hk1 : 1 ≤ k) (hkma : (k : Int) ≤ ma)
    (hnt : ∀ i, i < k → 1 ≤ i → nonTerminalPoll (oracle i) = true)
    (herr : get_job_status (oracle k) = .error e) :
    (wait_for_completion oracle ma si v).1 = .error e ∧
    countCalls (wait_for_completion oracle ma si v).2 = k ∧
    countSleeps (wait_for_completion oracle ma si v).2 = k - 1 ∧
    ∀ b, (wait_for_completion oracle ma si v).1 =
      .error (.timeoutError b) → e = .timeoutError b := by
  have hr : k - 1 < ma.toNat := by omega
  have hmain := wait_error_at oracle ma si v e (k - 1) 1 ma.toNat hr
    (fun j hj => hnt (1 + j) (by omega) (by omega))
    (by rwa [show 1 + (k - 1) = k by omega])
  unfold wait_for_completion
  refine ⟨hmain.1, by rw [hmain.2.1]; omega, hmain.2.2.1, fun b hb => ?_⟩
  rw [hmain.1] at hb
  exact Except.error.inj hb

theorem claim_c5_witness :
    (wait_for_completion errorAfterOne 5 2 true).1 =
      .error (.httpError 500) ∧
    countCalls (wait_for_completion errorAfterOne 5 2 true).2 = 2 ∧
    countSleeps (wait_for_completion errorAfterOne 5 2 true).2 = 1 :=
  have h := claim_c5_error_propagates errorAfterOne 5 2 true 2
    (.httpError 500) (by decide) (by decide) (by decide) rfl
  ⟨h.1, h.2.1, h.2.2.1⟩

/-- Claim C10: with `maxAttempts ≤ 0` the loop body never runs:
no `getStatus` call, no sleep, no display hand-off (the trace is empty),
and the call fails at once with the timeout error carrying
`maxAttempts * pollInterval`, which is non-positive for a non-negative
poll interval. -/
theorem claim_c10_nonpositive_budget (oracle : Nat → HttpResp)
    (ma si : Int) (v : Bool) (hma : ma ≤ 0) :
    wait_for_completion oracle ma si v =
      (.error (.timeoutError (ma * si)), []) ∧
    (0 ≤ si → ma * si ≤ 0) := by
  constructor
  · unfold wait_for_completion
    rw [Int.toNat_of_nonpos hma]
    exact wait_from_zero oracle 1 ma si v
  · intro hsi
    exact mul_nonpos_of_nonpos_of_nonneg hma hsi

theorem claim_c10_witness :
    wait_for_completion enqOracle (-3) 2 true =
      (.error (.timeoutError ((-3) * 2)), []) ∧
    ((-3 : Int) * 2 ≤ 0) :=
  have h := claim_c10_nonpositive_budget enqOracle (-3) 2 true (by decide)
  ⟨h.1, h.2 (by decide)⟩

/-- Claim C4 counterexample: the code has no typed `MalformedResponse`
outcome. On a 2xx response whose body merely lacks the `status` field,
`get_job_status` succeeds and returns the record; the `KeyError` is then
raised inside the waiter and, being of neither handled class, escapes
`main` uncaught instead of being treated like a request failure. -/
theorem claim_c4_counterexample :
    get_job_status noStatusResp = .ok noStatusDict ∧
    mainFlow okTrig noStatusOracle =
      (.uncaught (.keyError (str "status")), 1) :=
  ⟨rfl, rfl⟩

/-- Claim C4 amended: on a 2xx response there is no typed decode-failure
outcome: a malformed body makes `getStatus` raise the untyped JSON decode
error, while a body lacking the mandatory `status` field decodes
successfully (`getStatus` returns the record) and the waiter then fails
with an untyped `KeyError` when it reads `status["status"]`. -/
theorem claim_c4_untyped_decode_errors (r : HttpResp) (d : Dict)
    (hcode : ¬(400 ≤ r.status_code ∧ r.status_code < 600)) :
    (r.body = .malformed → get_job_status r = .error .jsonDecodeError) ∧
    (r.body = .json d → dictGet d (str "status") = none →
      get_job_status r = .ok d ∧
      ∀ (oracle : Nat → HttpResp) (ma si : Int) (v : Bool),
        oracle 1 = r → 1 ≤ ma →
        (wait_for_completion oracle ma si v).1 =
          .error (.keyError (str "status"))) := by
  constructor
  · intro hb
    simp [get_job_status, raise_for_status, response_json, hcode, hb]
    rfl
  · intro hb hkey
    have hok : get_job_status r = .ok d := by
      simp [get_job_status, raise_for_status, response_json, hcode, hb]
      rfl
    refine ⟨hok, fun oracle ma si v ho hma => ?_⟩
    obtain ⟨s, hs⟩ : ∃ s, ma.toNat = s + 1 := ⟨ma.toNat - 1, by omega⟩
    unfold wait_for_completion
    rw [hs, wait_from_step_nokey s ma si v (by rw [ho]; exact hok) hkey]

theorem claim_c4_witness :
    get_job_status malformedResp = .error .jsonDecodeError ∧
    (wait_for_completion noStatusOracle 60 2 true).1 =
      .error (.keyError (str "status")) :=
  have h1 := (claim_c4_untyped_decode_errors malformedResp []
    (by decide)).1 rfl
  have h2 := ((claim_c4_untyped_decode_errors noStatusResp noStatusDict
    (by decide)).2 rfl rfl).2 noStatusOracle 60 2 true rfl (by decide)
  ⟨h1, h2⟩

/-- Claim C6: a 2xx status payload lacking `jobName` and/or `jobType`
decodes successfully — absence is not a decode error — and the display
layer substitutes the `"Unknown"` sentinel for each absent field. -/
theorem claim_c6_absent_fields_default (r : HttpResp) (d : Dict)
    (hcode : ¬(400 ≤ r.status_code ∧ r.status_code < 600))
    (hbody : r.body = .json d) :
    get_job_status r = .ok d ∧
    (dictGet d (str "jobName") = none →
      displayed_job_name d = .s (str "Unknown")) ∧
    (dictGet d (str "jobType") = none →
      displayed_job_type d = .s (str "Unknown")) := by
  refine ⟨?_, fun h => by simp [displayed_job_name, h],
    fun h => by simp [displayed_job_type, h]⟩
  simp [get_job_status, raise_for_status, response_json, hcode, hbody]
  rfl

theorem claim_c6_witness :
    get_job_status enqResp = .ok enqDict ∧
    displayed_job_name enqDict = .s (str "Unknown") ∧
    displayed_job_type enqDict = .s (str "Unknown") :=
  have h := claim_c6_absent_fields_default enqResp enqDict (by decide) rfl
  ⟨h.1, h.2.1 rfl, h.2.2 rfl⟩

/-- Claim C7: the CLI flow maps outcomes to exit codes — 0 when the final
status is `SUCCEEDED`, 1 on `FAILED` or on any request failure from the
trigger or a poll, 2 on timeout — and a failing trigger (e.g. HTTP 404)
raises `requests.HTTPError` there and then, so `getStatus` is never
invoked (zero calls). -/
theorem claim_c7_exit_codes (trig : HttpResp) (oracle : Nat → HttpResp)
    (d0 d : Dict) (c : Nat) (b : Int) :
    (400 ≤ trig.status_code → trig.status_code < 600 →
      trigger_job trig = .error (.httpError trig.status_code) ∧
      mainFlow trig oracle = (.exitCode 1, 0)) ∧
    (trigger_job trig = .ok d0 →
      ((wait_for_completion oracle 60 2 true).1 = .ok d →
        dictGet d (str "status") = some (.s (str "SUCCEEDED")) →
        mainFlow trig oracle = (.exitCode 0,
          countCalls (wait_for_completion oracle 60 2 true).2)) ∧
      ((wait_for_completion oracle 60 2 true).1 = .ok d →
        dictGet d (str "status") = some (.s (str "FAILED")) →
        mainFlow trig oracle = (.exitCode 1,
          countCalls (wait_for_completion oracle 60 2 true).2)) ∧
      ((wait_for_completion oracle 60 2 true).1 = .error (.httpError c) →
        mainFlow trig oracle = (.exitCode 1,
          countCalls (wait_for_completion oracle 60 2 true).2)) ∧
      ((wait_for_completion oracle 60 2 true).1 =
          .error (.timeoutError b) →
        mainFlow trig oracle = (.exitCode 2,
          countCalls (wait_for_completion oracle 60 2 true).2))) := by
  constructor
  · intro h1 h2
    have htr : trigger_job trig = .error (.httpError trig.status_code) := by
      simp [trigger_job, raise_for_status, h1, h2]
      rfl
    exact ⟨htr, by simp [mainFlow, htr]⟩
  · intro htr
    have hsucc : pyStrEq (.s (str "SUCCEEDED")) (str "SUCCEEDED") = true :=
      rfl
    have hfail : pyStrEq (.s (str "FAILED")) (str "SUCCEEDED") = false :=
      rfl
    refine ⟨fun hw hd => ?_, fun hw hd => ?_, fun hw => ?_, fun hw => ?_⟩
    · simp [mainFlow, htr, hw, hd, hsucc]
    · simp [mainFlow, htr, hw, hd, hfail]
    · simp [mainFlow, htr, hw]
    · simp [mainFlow, htr, hw]

theorem claim_c7_witness :
    mainFlow trig404 succOracle = (.exitCode 1, 0) ∧
    mainFlow okTrig succOracle = (.exitCode 0,
      countCalls (wait_for_completion succOracle 60 2 true).2) :=
  have h1 := (claim_c7_exit_codes trig404 succOracle [] succDict 0 0).1
    (by decide) (by decide)
  have h2 := ((claim_c7_exit_codes okTrig succOracle [] succDict 0 0).2
    rfl).1 rfl rfl
  ⟨h1.2, h2⟩

/-- Claim C8 counterexample: the per-identifier part of the claim fails —
for the job identifier `"/123"` the constructed trigger URL carries a
doubled separator at the concatenation point between the API path and the
identifier. -/
theorem claim_c8_counterexample :
    trigger_url (str "http://localhost:8080") (str "/123") =
      str "http://localhost:8080/api/external-trigger//123/trigger" ∧
    trigger_url_joins_ok (str "http://localhost:8080") (str "/123") =
      false :=
  ⟨by decide, by decide⟩

/-- Claim C8 amended: stripping trailing separators at construction makes
any two base URLs differing only in trailing `'/'` characters yield
identical request URLs for every job identifier; and for every job
identifier that is nonempty and neither starts nor ends with `'/'`, no
concatenation point of a constructed URL carries a doubled separator. -/
theorem claim_c8_url_normalization (b j : Str) (n : Nat) :
    (trigger_url (b ++ List.replicate n '/') j = trigger_url b j ∧
     status_url (b ++ List.replicate n '/') j = status_url b j) ∧
    (j ≠ [] → j.head? ≠ some '/' → j.getLast? ≠ some '/' →
      trigger_url_joins_ok b j = true ∧
      status_url_joins_ok b j = true) := by
  constructor
  · constructor
    · unfold trigger_url api_path
      rw [rstripSlash_append_slashes]
    · unfold status_url api_path
      rw [rstripSlash_append_slashes]
  · intro hne hh hl
    have j1 := okJoin_of_left (rstripSlash b) (str "/api/external-trigger")
      (rstripSlash_getLast b)
    have j2 := okJoin_of_left (api_path b) (str "/")
      (by rw [api_path_getLast]; decide)
    have j3 := okJoin_of_right (api_path b ++ str "/") j hh
    have jlast : (api_path b ++ str "/" ++ j).getLast? ≠ some '/' := by
      rw [List.getLast?_append_of_ne_nil _ hne]
      exact hl
    have j4t := okJoin_of_left (api_path b ++ str "/" ++ j)
      (str "/trigger") jlast
    have j4s := okJoin_of_left (api_path b ++ str "/" ++ j)
      (str "/status") jlast
    constructor
    · unfold trigger_url_joins_ok
      rw [j1, j2, j3, j4t]
      rfl
    · unfold status_url_joins_ok
      rw [j1, j2, j3, j4s]
      rfl

theorem claim_c8_witness :
    trigger_url (str "http://localhost:8080/" ++ List.replicate 2 '/')
        (str "123") =
      trigger_url (str "http://localhost:8080/") (str "123") ∧
    trigger_url_joins_ok (str "http://localhost:8080/") (str "123") =
      true ∧
    status_url_joins_ok (str "http://localhost:8080/") (str "123") =
      true :=
  have h := claim_c8_url_normalization (str "http://localhost:8080/")
    (str "123") 2
  have hj := h.2 (by decide) (by decide) (by decide)
  ⟨h.1.1, hj.1, hj.2⟩

/-- Claim C9: the verbose flag has no effect on control flow — outcome,
number of `getStatus` calls and sleeps are identical with verbose on or
off, and the traces agree once display events are erased; verbose only
adds the display hand-offs, which (for polls that decode to a record
with a `status` key) happen once per call, the returning attempt
included. -/
theorem claim_c9_verbose_no_effect (oracle : Nat → HttpResp)
    (ma si : Int) :
    (wait_for_completion oracle ma si true).1 =
      (wait_for_completion oracle ma si false).1 ∧
    eraseDisplays (wait_for_completion oracle ma si true).2 =
      (wait_for_completion oracle ma si false).2 ∧
    countCalls (wait_for_completion oracle ma si true).2 =
      countCalls (wait_for_completion oracle ma si false).2 ∧
    countSleeps (wait_for_completion oracle ma si true).2 =
      countSleeps (wait_for_completion oracle ma si false).2 ∧
    countDisplays (wait_for_completion oracle ma si false).2 = 0 ∧
    ((∀ i, 1 ≤ i → wellFormedPoll (oracle i) = true) →
      countDisplays (wait_for_completion oracle ma si true).2 =
        countCalls (wait_for_completion oracle ma si true).2) := by
  have hind := wait_verbose_indep oracle ma si ma.toNat 1
  unfold wait_for_completion
  refine ⟨hind.1, hind.2, ?_, ?_, ?_, ?_⟩
  · rw [← hind.2, countCalls_eraseDisplays]
  · rw [← hind.2, countSleeps_eraseDisplays]
  · rw [← hind.2, countDisplays_eraseDisplays]
  · intro h
    exact wait_displays_eq_calls oracle ma si ma.toNat 1
      (fun i hi => h i hi)

theorem claim_c9_witness :
    (wait_for_completion succOracle 3 2 true).1 =
      (wait_for_completion succOracle 3 2 false).1 ∧
    countDisplays (wait_for_completion succOracle 3 2 true).2 =
      countCalls (wait_for_completion succOracle 3 2 true).2 :=
  have h := claim_c9_verbose_no_effect succOracle 3 2
  ⟨h.1, h.2.2.2.2.2 (fun i hi => rfl)⟩
